import Mathlib

/-!
Shallow embedding of `src/cursor_wrapper/main.py` (class `CursorWrapper`),
the launcher for a portable executable image.  Pure Python functions become
Lean functions; filesystem state is passed explicitly through a `WState`
record; `sys.exit(1)` and uncaught exceptions are modelled as `Except.error`
carrying the filesystem state at the moment of the abort; interactions with
the outside world (the pgrep query, the network download, the spawn of the
application process, and any OS errors raised by rename/unlink during log
rotation) are inputs drawn from an `Env` record.
-/

namespace CursorWrapper

/-- `self.max_log_size = 5 * 1024 * 1024` (main.py line 30). -/
def max_log_size : Nat := 5 * 1024 * 1024

/-- An executable image discovered by `cursor_dir.glob("cursor-*.AppImage")`:
its path and its `st_mtime` modification timestamp. -/
structure Image where
  path : String
  mtime : Nat
deriving DecidableEq, Repr

/-- The directory entry found at the pointer path `cursor.latest`:
nothing, a regular (non-symlink) file, or a symlink with the given target. -/
inductive Entry where
  | absent
  | regular
  | symlinkTo (target : String)
deriving DecidableEq, Repr

/-- A log file slot: the active file's byte content (`none` when the file is
absent) and the `.old` rotated sibling's content. -/
structure LogFile where
  cur : Option (List Nat)
  old : Option (List Nat)
deriving DecidableEq, Repr

/-- The filesystem state the wrapper reads and writes: the AppImages present
in `~/.local/bin` in enumeration order, the entry at `cursor.latest`, the
staged temporary download (at most one), the two log files, and a ghost flag
recording whether `subprocess.Popen` was ever invoked. -/
structure WState where
  images : List Image
  entry : Entry
  temp : Option (List Nat)
  stdoutLog : LogFile
  stderrLog : LogFile
  launched : Bool
deriving DecidableEq, Repr

/-- Outcome of `subprocess.run(["pgrep", "-f", symlink])` (lines 42-46):
one of the exceptions the code catches (`subprocess.SubprocessError`,
`FileNotFoundError`) was raised; or an `OSError` outside the caught types
was raised (for example `PermissionError` when `pgrep` is found but not
executable), which the `except` clause of line 48 does not match; or a
`CompletedProcess` with a return code and captured stdout came back. -/
inductive PgrepOutcome where
  | raised
  | raisedUncaught
  | completed (returncode : Int) (stdout : String)
deriving DecidableEq, Repr

/-- Outcome of the network download (lines 103-121): a
`requests.RequestException` (connection error, HTTP error status, mid-stream
transport error), an `OSError` while writing the staged file or setting its
permission bits, or success with the downloaded bytes. -/
inductive DownloadOutcome where
  | requestError
  | ioError
  | success (content : List Nat)
deriving DecidableEq, Repr

/-- Outcome of the launch attempt in `start_cursor` (lines 168-196): an
`OSError`/`SubprocessError` while opening the log files, a failure at
`Popen` itself, or a spawn after which the 2-second poll finds the process
already exited, or still running. -/
inductive SpawnOutcome where
  | openError
  | spawnError
  | exitedEarly
  | stillRunning
deriving DecidableEq, Repr

/-- The external world as the wrapper observes it during one invocation. -/
structure Env where
  pgrep : PgrepOutcome
  download : DownloadOutcome
  newImage : Image
  rotFailStdout : Bool
  rotFailStderr : Bool
  spawn : SpawnOutcome
deriving Repr

/-- Python's `str.strip()`: drop leading and trailing whitespace. -/
def pyStrip (s : String) : String :=
  ⟨((s.data.dropWhile Char.isWhitespace).reverse.dropWhile
      Char.isWhitespace).reverse⟩

/-- `is_cursor_running` (lines 39-49): true iff the pgrep query returned
exit status 0 with non-empty (after `strip()`) output; a caught exception
(`SubprocessError`, `FileNotFoundError`) yields false, while an `OSError`
outside the caught types (e.g. `PermissionError`) escapes the handler and
propagates to the caller.  The Python body returns
`result.returncode == 0 and result.stdout.strip()`, whose truth value under
`if` is exactly this conjunction. -/
def is_cursor_running : PgrepOutcome → Except Unit Bool
  | .raised => .ok false
  | .raisedUncaught => .error ()
  | .completed rc out => .ok (rc == 0 && !(pyStrip out == ""))

/-- `rotate_logs` (lines 51-57), instrumented with the possibility that the
`unlink`/`rename` pair raises an `OSError` (`osFail = true`): if the file
exists and its size exceeds `max_log_size`, delete any `.old` sibling and
rename the file onto it; otherwise do nothing.  The function has no
`try`/`except`, so a raised `OSError` propagates to the caller. -/
def rotate_logs (osFail : Bool) (lf : LogFile) : Except Unit LogFile :=
  match lf.cur with
  | none => .ok lf
  | some c =>
    if c.length > max_log_size then
      if osFail then .error () else .ok { cur := none, old := some c }
    else .ok lf

/-- The launched application appending fresh content to its log file
(re-growth between two rotations). -/
def writeLog (lf : LogFile) (c : List Nat) : LogFile := { lf with cur := some c }

/-- `max(appimages, key=lambda p: p.stat().st_mtime)` unrolled: Python's
`max` scans left to right and replaces the running best only on a strictly
greater key, so it returns the first element attaining the maximal key. -/
def pyMaxAux (best : Image) : List Image → Image
  | [] => best
  | x :: xs => pyMaxAux (if x.mtime > best.mtime then x else best) xs

/-- Selection step of `update_cursor_symlink` (line 80): the first image of
maximal modification time, `none` on an empty enumeration (where the Python
`max` would raise, a case the code rules out beforehand). -/
def selectLatest : List Image → Option Image
  | [] => none
  | x :: xs => some (pyMaxAux x xs)

/-- `Path.is_symlink()` on the pointer entry. -/
def Entry.isSymlink : Entry → Bool
  | .symlinkTo _ => true
  | _ => false

/-- `Path.exists()` on the pointer entry: it follows symlinks, so a symlink
counts as existing only when its target is one of the present images. -/
def entryExists (imgs : List Image) : Entry → Bool
  | .absent => false
  | .regular => true
  | .symlinkTo t => imgs.any (fun i => i.path == t)

/-- `Path.resolve()` (non-strict) on the pointer: a symlink resolves to its
target even when the target is absent.  Only consulted after `is_symlink()`
held, thanks to Python's short-circuiting `or`; the value returned for the
other entries is never compared. -/
def resolveEntry : Entry → String
  | .symlinkTo t => t
  | _ => ""

/-- Lines 82-88 wrapped by the `except OSError` of lines 89-91: replace the
pointer when it is not a symlink or resolves elsewhere.  `unlink` runs only
when `exists()` holds (which follows symlinks), after which `symlink_to`
creates the link — but on a dangling symlink `exists()` is false, nothing is
unlinked, and `symlink_to` raises `FileExistsError` (an `OSError`), which
the handler turns into `sys.exit(1)`.  The returned `Bool` records whether
the "Updated Cursor symlink" report was printed. -/
def updateLink (st : WState) (latest : Image) : Except WState (WState × Bool) :=
  if st.entry.isSymlink = false ∨ resolveEntry st.entry ≠ latest.path then
    if entryExists st.images st.entry then
      .ok ({ st with entry := .symlinkTo latest.path }, true)
    else
      match st.entry with
      | .absent => .ok ({ st with entry := .symlinkTo latest.path }, true)
      | _ => .error st
  else
    .ok (st, false)

/-- `download_cursor_appimage` (lines 93-134): create a named temporary
file, stream the download into it, set the executable bit; on a
`RequestException` or `OSError` unlink the temporary file and
`sys.exit(1)`; on success return the staged path. -/
def download_cursor_appimage (env : Env) (st : WState) :
    Except WState (WState × List Nat) :=
  let stT : WState := { st with temp := some [] }
  match env.download with
  | .requestError => .error { stT with temp := none }
  | .ioError => .error { stT with temp := none }
  | .success content => .ok ({ stT with temp := some content }, content)

/-- The pointer-maintenance pass shared by both entry points (lines 63-91)
for a caller that passed `auto_install=False`: enumerate, fail fatally when
empty, otherwise select the latest image and update the link. -/
def update_cursor_symlink_noauto (st : WState) : Except WState (WState × Bool) :=
  match selectLatest st.images with
  | none => .error st
  | some latest => updateLink st latest

/-- `install_cursor` (lines 136-164): ensure the binary directory, download,
move the staged file into the binary directory under a fresh
timestamp-derived name (becoming a new image), then run
`update_cursor_symlink()` with its default `auto_install=False`.  A
`sys.exit` from the download or from the inner symlink update propagates
(the `except OSError` there does not catch `SystemExit`). -/
def install_cursor (env : Env) (st : WState) : Except WState WState :=
  match download_cursor_appimage env st with
  | .error st' => .error st'
  | .ok (st', _) =>
    let st2 : WState := { st' with temp := none, images := st'.images ++ [env.newImage] }
    match update_cursor_symlink_noauto st2 with
    | .error st3 => .error st3
    | .ok (st3, _) => .ok st3

/-- `update_cursor_symlink` (lines 59-91): enumerate the images; when none
are found, either auto-install and re-enumerate (failing fatally when still
empty) or fail fatally with an instruction to install; then select the
latest image and update the pointer. -/
def update_cursor_symlink (env : Env) (st : WState) (auto_install : Bool) :
    Except WState (WState × Bool) :=
  match selectLatest st.images with
  | none =>
    if auto_install then
      match install_cursor env st with
      | .error st' => .error st'
      | .ok st1 =>
        match selectLatest st1.images with
        | none => .error st1
        | some latest => updateLink st1 latest
    else .error st
  | some latest => updateLink st latest

/-- Open-for-append (`open(log, 'a')`): creates an empty file when absent,
otherwise leaves the content to be appended to. -/
def openAppend (lf : LogFile) : LogFile := { lf with cur := some (lf.cur.getD []) }

/-- `start_cursor` (lines 166-200): open both log files for append, spawn
the pointer path with the pass-through arguments detached into a new
process group, sleep 2 seconds, poll; return 0 when the process is still
running and 1 when it already exited or when opening/spawning raised (the
`except` of lines 198-200 returns 1 rather than aborting). -/
def start_cursor (env : Env) (st : WState) : WState × Nat :=
  match env.spawn with
  | .openError => (st, 1)
  | .spawnError =>
    ({ st with stdoutLog := openAppend st.stdoutLog,
               stderrLog := openAppend st.stderrLog }, 1)
  | .exitedEarly =>
    ({ st with stdoutLog := openAppend st.stdoutLog,
               stderrLog := openAppend st.stderrLog, launched := true }, 1)
  | .stillRunning =>
    ({ st with stdoutLog := openAppend st.stdoutLog,
               stderrLog := openAppend st.stderrLog, launched := true }, 0)

/-- `run` (lines 202-217): update the symlink, query the instance detector
(an `OSError` outside the types caught inside `is_cursor_running` escapes
it and is uncaught in `run` and in `main`, aborting the process),
short-circuit with 0 when the detector reports the application running,
rotate both log files (any `OSError` raised there is likewise uncaught,
aborting before the launch), then start the application and return its
code. -/
def run (env : Env) (st : WState) (auto_install : Bool) :
    Except WState (WState × Nat) :=
  match update_cursor_symlink env st auto_install with
  | .error st' => .error st'
  | .ok (st1, _) =>
    match is_cursor_running env.pgrep with
    | .error _ => .error st1
    | .ok running =>
      if running then .ok (st1, 0)
      else
        match rotate_logs env.rotFailStdout st1.stdoutLog with
        | .error _ => .error st1
        | .ok lf1 =>
          let st2 : WState := { st1 with stdoutLog := lf1 }
          match rotate_logs env.rotFailStderr st2.stderrLog with
          | .error _ => .error st2
          | .ok lf2 =>
            let st3 : WState := { st2 with stderrLog := lf2 }
            .ok (start_cursor env st3)

/-- A top-level entry point of the wrapper: `run(args, auto_install)` or the
standalone `--install` path (`install_cursor`). -/
inductive TopOp where
  | runOp (auto_install : Bool)
  | installOp
deriving DecidableEq, Repr

/-- Execute a top-level operation, keeping only the resulting state. -/
def execOp (op : TopOp) (env : Env) (st : WState) : Except WState WState :=
  match op with
  | .runOp auto => (run env st auto).map Prod.fst
  | .installOp => install_cursor env st

/-- The Latest Pointer invariant: the entry at `cursor.latest` is a symlink
to one of the present images, and that image's modification time is maximal
among them. -/
def pointsToNewest (st : WState) : Prop :=
  ∃ i : Image, i ∈ st.images ∧ st.entry = .symlinkTo i.path ∧
    ∀ j ∈ st.images, j.mtime ≤ i.mtime

instance (st : WState) : Decidable (pointsToNewest st) := by
  unfold pointsToNewest
  exact List.decidableBEx _ st.images

/-! ### Properties of the selection step -/

theorem pyMaxAux_mem (best : Image) (l : List Image) :
    pyMaxAux best l = best ∨ pyMaxAux best l ∈ l := by
  induction l generalizing best with
  | nil => exact Or.inl rfl
  | cons x xs ih =>
    simp only [pyMaxAux]
    rcases ih (if x.mtime > best.mtime then x else best) with h | h
    · rw [h]
      split
      · exact Or.inr (List.mem_cons_self _ _)
      · exact Or.inl rfl
    · exact Or.inr (List.mem_cons_of_mem _ h)

theorem le_pyMaxAux (best : Image) (l : List Image) :
    best.mtime ≤ (pyMaxAux best l).mtime := by
  induction l generalizing best with
  | nil => exact le_refl _
  | cons x xs ih =>
    simp only [pyMaxAux]
    refine le_trans ?_ (ih _)
    split
    next h => omega
    next h => exact le_refl _

theorem pyMaxAux_ge (best : Image) (l : List Image) :
    ∀ j ∈ l, j.mtime ≤ (pyMaxAux best l).mtime := by
  induction l generalizing best with
  | nil => intro j hj; cases hj
  | cons x xs ih =>
    intro j hj
    simp only [pyMaxAux]
    rcases List.mem_cons.mp hj with rfl | hj
    · refine le_trans ?_ (le_pyMaxAux _ _)
      split
      next h => exact le_refl _
      next h => omega
    · exact ih _ j hj

theorem selectLatest_mem {l : List Image} {i : Image}
    (h : selectLatest l = some i) : i ∈ l := by
  cases l with
  | nil => cases h
  | cons x xs =>
    simp only [selectLatest, Option.some.injEq] at h
    subst h
    rcases pyMaxAux_mem x xs with h | h
    · rw [h]; exact List.mem_cons_self _ _
    · exact List.mem_cons_of_mem _ h

theorem selectLatest_max {l : List Image} {i : Image}
    (h : selectLatest l = some i) : ∀ j ∈ l, j.mtime ≤ i.mtime := by
  cases l with
  | nil => cases h
  | cons x xs =>
    simp only [selectLatest, Option.some.injEq] at h
    subst h
    intro j hj
    rcases List.mem_cons.mp hj with rfl | hj
    · exact le_pyMaxAux _ _
    · exact pyMaxAux_ge _ _ j hj

/-! ### Properties of the pointer update -/

theorem isSymlink_eq : ∀ {e : Entry}, e.isSymlink = true →
    e = .symlinkTo (resolveEntry e)
  | .symlinkTo _, _ => rfl
  | .absent, h => nomatch h
  | .regular, h => nomatch h

theorem updateLink_ok {st : WState} {latest : Image} {st' : WState} {b : Bool}
    (h : updateLink st latest = .ok (st', b)) :
    st'.entry = .symlinkTo latest.path ∧ st'.images = st.images ∧
    st'.temp = st.temp ∧ st'.stdoutLog = st.stdoutLog ∧
    st'.stderrLog = st.stderrLog ∧ st'.launched = st.launched := by
  unfold updateLink at h
  split at h
  next hc =>
    split at h
    next =>
      simp only [Except.ok.injEq, Prod.mk.injEq] at h
      obtain ⟨h1, -⟩ := h
      subst h1
      simp
    next =>
      split at h
      next =>
        simp only [Except.ok.injEq, Prod.mk.injEq] at h
        obtain ⟨h1, -⟩ := h
        subst h1
        simp
      next => simp at h
  next hc =>
    simp only [Except.ok.injEq, Prod.mk.injEq] at h
    obtain ⟨h1, -⟩ := h
    subst h1
    push_neg at hc
    obtain ⟨hsym, hres⟩ := hc
    refine ⟨?_, rfl, rfl, rfl, rfl, rfl⟩
    have he : st.entry = .symlinkTo (resolveEntry st.entry) :=
      isSymlink_eq (by simpa using hsym)
    rw [he, hres]

theorem install_cursor_ok {env : Env} {st st' : WState}
    (h : install_cursor env st = .ok st') :
    st'.stdoutLog = st.stdoutLog ∧ st'.stderrLog = st.stderrLog ∧
    st'.launched = st.launched ∧
    ∃ sel, selectLatest st'.images = some sel ∧
      st'.entry = .symlinkTo sel.path := by
  rcases henv : env.download with _ | _ | content
  · simp only [install_cursor, download_cursor_appimage, henv] at h
    exact Except.noConfusion h
  · simp only [install_cursor, download_cursor_appimage, henv] at h
    exact Except.noConfusion h
  · simp only [install_cursor, download_cursor_appimage, henv] at h
    split at h
    next => simp at h
    next st3 snd hsn =>
      simp only [Except.ok.injEq] at h
      subst h
      unfold update_cursor_symlink_noauto at hsn
      split at hsn
      next => simp at hsn
      next sel hsel =>
        obtain ⟨he, him, -, hso, hse, hln⟩ := updateLink_ok hsn
        simp only at him hso hse hln
        refine ⟨by rw [hso], by rw [hse], by rw [hln],
          sel, by rw [him]; exact hsel, he⟩

theorem update_ok_shape {env : Env} {st : WState} {auto : Bool}
    {st1 : WState} {b : Bool}
    (h : update_cursor_symlink env st auto = .ok (st1, b)) :
    (∃ sel, selectLatest st1.images = some sel ∧
      st1.entry = .symlinkTo sel.path) ∧
    st1.stdoutLog = st.stdoutLog ∧ st1.stderrLog = st.stderrLog ∧
    st1.launched = st.launched := by
  unfold update_cursor_symlink at h
  split at h
  next =>
    split at h
    next =>
      split at h
      next => simp at h
      next stI hinst =>
        split at h
        next => simp at h
        next sel hsel =>
          obtain ⟨he, him, -, hso, hse, hln⟩ := updateLink_ok h
          obtain ⟨hso', hse', hln', -⟩ := install_cursor_ok hinst
          exact ⟨⟨sel, by rw [him]; exact hsel, he⟩,
            hso.trans hso', hse.trans hse', hln.trans hln'⟩
    next => simp at h
  next sel hsel =>
    obtain ⟨he, him, -, hso, hse, hln⟩ := updateLink_ok h
    exact ⟨⟨sel, by rw [him]; exact hsel, he⟩, hso, hse, hln⟩

theorem start_cursor_frame (env : Env) (st : WState) :
    (start_cursor env st).1.entry = st.entry ∧
    (start_cursor env st).1.images = st.images := by
  rcases h : env.spawn with _ | _ | _ | _ <;> simp [start_cursor, h]

theorem run_ok_shape {env : Env} {st : WState} {auto : Bool}
    {st' : WState} {n : Nat} (h : run env st auto = .ok (st', n)) :
    ∃ st1 b, update_cursor_symlink env st auto = .ok (st1, b) ∧
      st'.entry = st1.entry ∧ st'.images = st1.images := by
  unfold run at h
  split at h
  next => exact Except.noConfusion h
  next st1 b hup =>
    refine ⟨st1, b, hup, ?_⟩
    split at h
    next => exact Except.noConfusion h
    next running hir =>
      split at h
      next =>
        simp only [Except.ok.injEq, Prod.mk.injEq] at h
        obtain ⟨h1, -⟩ := h
        subst h1
        exact ⟨rfl, rfl⟩
      next =>
        split at h
        next => exact Except.noConfusion h
        next lf1 hr1 =>
          dsimp only at h
          split at h
          next => exact Except.noConfusion h
          next lf2 hr2 =>
            simp only [Except.ok.injEq] at h
            have hfr := start_cursor_frame env
              { st1 with stdoutLog := lf1, stderrLog := lf2 }
            rw [h] at hfr
            exact ⟨hfr.1, hfr.2⟩

/-! ### Concrete inputs used by witnesses and counterexamples -/

/-- A discovered executable image used by concrete witnesses. -/
def imgA : Image := { path := "cursor-20240101.AppImage", mtime := 100 }

/-- An empty log file pair. -/
def emptyLog : LogFile := { cur := none, old := none }

/-- State with no images, no pointer, no staged download, empty logs. -/
def stEmpty : WState :=
  { images := [], entry := .absent, temp := none, stdoutLog := emptyLog,
    stderrLog := emptyLog, launched := false }

/-- State holding one image and no pointer yet. -/
def stOneImage : WState := { stEmpty with images := [imgA] }

/-- State holding one image with the pointer already set to it. -/
def stLinked : WState := { stOneImage with entry := .symlinkTo imgA.path }

/-- Environment where the download succeeds, nothing is running, rotation
raises no error and the spawned process stays alive. -/
def envInstall : Env :=
  { pgrep := .completed 1 "", download := .success [], newImage := imgA,
    rotFailStdout := false, rotFailStderr := false, spawn := .stillRunning }

/-- Environment where the pgrep query reports a live instance. -/
def envRunning : Env := { envInstall with pgrep := .completed 0 "4242" }

/-- Environment where the download fails with a transport error. -/
def envFail : Env := { envInstall with download := .requestError }

/-! ### Claim theorems -/

/-- Claim C10 as amended: `is_cursor_running` reports "running" exactly
when the pgrep query completed with exit status 0 and non-empty stripped
output; a caught exception (`SubprocessError`, `FileNotFoundError`), a
non-zero exit status, or empty output all report "not running" without
raising; but it raises exactly when the query raised an `OSError` outside
the caught types (e.g. `PermissionError`), which then propagates to the
caller. -/
theorem is_cursor_running_spec (o : PgrepOutcome) :
    (is_cursor_running o = .ok true ↔
      ∃ rc out, o = .completed rc out ∧ rc = 0 ∧ ¬ pyStrip out = "") ∧
    (is_cursor_running o = .error () ↔ o = .raisedUncaught) := by
  cases o with
  | raised => simp [is_cursor_running]
  | raisedUncaught => simp [is_cursor_running]
  | completed rc out =>
    constructor
    · simp only [is_cursor_running, Except.ok.injEq, Bool.and_eq_true,
        beq_iff_eq, Bool.not_eq_true', beq_eq_false_iff_ne, ne_eq,
        PgrepOutcome.completed.injEq]
      constructor
      · rintro ⟨hrc, hout⟩
        exact ⟨rc, out, ⟨rfl, rfl⟩, hrc, hout⟩
      · rintro ⟨rc1, out1, ⟨rfl, rfl⟩, hrc, hout⟩
        exact ⟨hrc, hout⟩
    · simp [is_cursor_running]

/-- Claim C5: rotation uses a strict threshold — a log of exactly
`max_log_size` bytes is left untouched, while one byte over moves the whole
content to the single `.old` sibling and leaves the active file absent. -/
theorem rotation_threshold_strict (c1 c2 : List Nat) (o1 o2 : Option (List Nat))
    (h1 : c1.length = max_log_size) (h2 : c2.length = max_log_size + 1) :
    rotate_logs false { cur := some c1, old := o1 }
        = .ok { cur := some c1, old := o1 } ∧
    rotate_logs false { cur := some c2, old := o2 }
        = .ok { cur := none, old := some c2 } := by
  constructor
  · simp [rotate_logs, h1]
  · simp [rotate_logs, h2]

/-- Witness for C5 at concrete contents of sizes `max_log_size` and
`max_log_size + 1`. -/
theorem rotation_threshold_strict_witness :
    rotate_logs false { cur := some (List.replicate max_log_size 0), old := none }
        = .ok { cur := some (List.replicate max_log_size 0), old := none } ∧
    rotate_logs false { cur := some (List.replicate (max_log_size + 1) 0), old := none }
        = .ok { cur := none, old := some (List.replicate (max_log_size + 1) 0) } :=
  rotation_threshold_strict _ _ _ _ (by rw [List.length_replicate])
    (by rw [List.length_replicate])

/-- Claim C6: rotating an oversize log, letting the application re-grow it,
and rotating again leaves exactly one `.old` sibling holding only the second
rotation's pre-rotation content; the first generation is discarded. -/
theorem double_rotation_single_generation (c1 c2 : List Nat)
    (o0 : Option (List Nat)) (h1 : max_log_size < c1.length)
    (h2 : max_log_size < c2.length) :
    (rotate_logs false { cur := some c1, old := o0 }).bind
        (fun lf1 => rotate_logs false (writeLog lf1 c2))
      = .ok { cur := none, old := some c2 } := by
  simp [rotate_logs, writeLog, h1, h2, Except.bind]

/-- Witness for C6 with two distinct oversize contents. -/
theorem double_rotation_single_generation_witness :
    (rotate_logs false
        { cur := some (List.replicate (max_log_size + 1) 1), old := none }).bind
        (fun lf1 => rotate_logs false
          (writeLog lf1 (List.replicate (max_log_size + 1) 2)))
      = .ok { cur := none, old := some (List.replicate (max_log_size + 1) 2) } :=
  double_rotation_single_generation _ _ _
    (by rw [List.length_replicate]; exact Nat.lt_succ_self _)
    (by rw [List.length_replicate]; exact Nat.lt_succ_self _)

/-- Claim C7: any download failure (transport error, or I/O error while
writing or chmod-ing the staged file) makes the install path abort with
`sys.exit(1)` after deleting the staged temporary file: the scratch
location holds no temporary file and the binary directory holds no new
executable image. -/
theorem install_failure_cleanup (env : Env) (st : WState)
    (h : env.download = .requestError ∨ env.download = .ioError) :
    ∃ st', install_cursor env st = .error st' ∧ st'.temp = none ∧
      st'.images = st.images ∧ st'.entry = st.entry := by
  refine ⟨{ st with temp := none }, ?_, rfl, rfl, rfl⟩
  unfold install_cursor download_cursor_appimage
  rcases h with h | h <;> rw [h]

/-- Witness for C7: a transport failure on the empty initial state. -/
theorem install_failure_cleanup_witness :
    ∃ st', install_cursor envFail stEmpty = .error st' ∧ st'.temp = none ∧
      st'.images = stEmpty.images ∧ st'.entry = stEmpty.entry :=
  install_failure_cleanup envFail stEmpty (Or.inl rfl)

/-- Claim C1: after any successful completion of `run` or of the standalone
install, the `cursor.latest` pointer is a symlink to a discovered executable
image whose modification timestamp is maximal among all discovered
images. -/
theorem run_install_pointer_invariant (op : TopOp) (env : Env) (st st' : WState)
    (h : execOp op env st = .ok st') : pointsToNewest st' := by
  have shape : ∃ sel, selectLatest st'.images = some sel ∧
      st'.entry = .symlinkTo sel.path := by
    cases op with
    | runOp auto =>
      simp only [execOp] at h
      cases hr : run env st auto with
      | error s =>
        rw [hr] at h
        exact Except.noConfusion h
      | ok p =>
        rw [hr] at h
        simp only [Except.map, Except.ok.injEq] at h
        obtain ⟨st1, b, hup, he, him⟩ :=
          run_ok_shape (show run env st auto = .ok (p.1, p.2) by rw [hr])
        obtain ⟨⟨sel, hsel, hent⟩, -⟩ := update_ok_shape hup
        subst h
        exact ⟨sel, by rw [him]; exact hsel, by rw [he]; exact hent⟩
    | installOp =>
      simp only [execOp] at h
      obtain ⟨-, -, -, sel, hsel, hent⟩ := install_cursor_ok h
      exact ⟨sel, hsel, hent⟩
  obtain ⟨sel, hsel, hent⟩ := shape
  exact ⟨sel, selectLatest_mem hsel, hent, selectLatest_max hsel⟩

/-- Witness for C1: installing into an empty state leaves the pointer on the
freshly installed image. -/
theorem run_install_pointer_invariant_witness :
    pointsToNewest { stOneImage with entry := .symlinkTo imgA.path } :=
  run_install_pointer_invariant .installOp envInstall stEmpty _ rfl

/-- Claim C8: running the pointer update twice in succession with no new
image added leaves the pointer unchanged after the second call, and the
second call emits no "Updated" report (the returned flag is `false`). -/
theorem pointer_update_idempotent (env env' : Env) (st st1 : WState)
    (a a' b : Bool)
    (h : update_cursor_symlink env st a = .ok (st1, b)) :
    update_cursor_symlink env' st1 a' = .ok (st1, false) := by
  obtain ⟨⟨sel, hsel, hent⟩, -⟩ := update_ok_shape h
  unfold update_cursor_symlink
  rw [hsel]
  show updateLink st1 sel = .ok (st1, false)
  unfold updateLink
  rw [hent]
  simp [Entry.isSymlink, resolveEntry]

/-- Witness for C8: the first call creates the pointer, the second call is a
no-op reporting no update. -/
theorem pointer_update_idempotent_witness :
    update_cursor_symlink envInstall stLinked false = .ok (stLinked, false) :=
  pointer_update_idempotent envInstall envInstall stOneImage stLinked
    false false true rfl

/-- Claim C9: when the instance detector reports a live instance, `run`
returns 0 right after the pointer update, invoking neither the rotation nor
the launch: the log files and the launch flag are exactly those of the
pre-`run` state. -/
theorem already_running_short_circuit (env : Env) (st st1 : WState)
    (a b : Bool)
    (h1 : update_cursor_symlink env st a = .ok (st1, b))
    (h2 : is_cursor_running env.pgrep = .ok true) :
    run env st a = .ok (st1, 0) ∧ st1.stdoutLog = st.stdoutLog ∧
      st1.stderrLog = st.stderrLog ∧ st1.launched = st.launched := by
  obtain ⟨-, hso, hse, hln⟩ := update_ok_shape h1
  refine ⟨?_, hso, hse, hln⟩
  unfold run
  rw [h1]
  dsimp only
  rw [h2]
  rfl

/-- Witness for C9: the detector sees pid output, `run` returns 0 and the
state is untouched beyond the (here already current) pointer. -/
theorem already_running_short_circuit_witness :
    run envRunning stLinked false = .ok (stLinked, 0) ∧
      stLinked.stdoutLog = stLinked.stdoutLog ∧
      stLinked.stderrLog = stLinked.stderrLog ∧
      stLinked.launched = stLinked.launched :=
  already_running_short_circuit envRunning stLinked stLinked false false
    rfl rfl

/-- State whose pointer is a dangling symlink: the target is not among the
present images. -/
def stDangling : WState :=
  { stEmpty with images := [imgA], entry := .symlinkTo "cursor-gone.AppImage" }

/-- Claim C2 (code bug): on a dangling pointer the update does not complete.
The pointer is a symlink whose resolved target differs from the selected
image, so the replacement branch is taken; but `exists()` follows the link
and reports false, nothing is unlinked, and `symlink_to` hits the leftover
link entry, raising `FileExistsError`, which the `except OSError` handler
turns into `sys.exit(1)`. -/
theorem dangling_pointer_update_aborts :
    stDangling.entry.isSymlink = true ∧
    resolveEntry stDangling.entry ≠ imgA.path ∧
    entryExists stDangling.images stDangling.entry = false ∧
    selectLatest stDangling.images = some imgA ∧
    update_cursor_symlink envInstall stDangling false = .error stDangling :=
  ⟨rfl, by decide, rfl, rfl, rfl⟩

/-- An oversize log content (`max_log_size + 1` bytes). -/
def bigContent : List Nat := List.replicate (max_log_size + 1) 0

/-- State whose stdout log is oversize, with the pointer already current. -/
def stBigLog : WState :=
  { stEmpty with
    images := [imgA]
    entry := Entry.symlinkTo imgA.path
    stdoutLog := { cur := some bigContent, old := none } }

/-- Environment in which the rename/unlink pair of the stdout rotation
raises an `OSError` and nothing is running. -/
def envRotFail : Env :=
  { envInstall with rotFailStdout := true }

theorem run_err_of_rotate_err {env : Env} {st : WState} {auto : Bool}
    {st1 : WState} {b : Bool}
    (hup : update_cursor_symlink env st auto = .ok (st1, b))
    (hnr : is_cursor_running env.pgrep = .ok false)
    (hrot : rotate_logs env.rotFailStdout st1.stdoutLog = .error ()) :
    run env st auto = .error st1 := by
  unfold run
  rw [hup]
  dsimp only
  rw [hnr]
  dsimp only
  simp only [Bool.false_eq_true, if_false]
  rw [hrot]

/-- Claim C3 (code bug): `rotate_logs` has no handler and `run` (and `main`)
none either, so an `OSError` raised during rotation propagates and aborts
the process before `start_cursor` is reached: `run` ends in the error state
with the launch flag still unset. -/
theorem rotation_error_aborts_before_launch :
    run envRotFail stBigLog false = .error stBigLog ∧
    stBigLog.launched = false := by
  constructor
  · have hcond : ¬(stBigLog.entry.isSymlink = false ∨
        resolveEntry stBigLog.entry ≠ imgA.path) := by
      simp [stBigLog, stEmpty, imgA, Entry.isSymlink, resolveEntry]
    have hup : update_cursor_symlink envRotFail stBigLog false
        = .ok (stBigLog, false) := by
      unfold update_cursor_symlink
      show updateLink stBigLog imgA = _
      unfold updateLink
      rw [if_neg hcond]
    have hlen : bigContent.length > max_log_size := by
      unfold bigContent
      rw [List.length_replicate]
      exact Nat.lt_succ_self _
    have hrot : rotate_logs envRotFail.rotFailStdout stBigLog.stdoutLog
        = .error () := by
      have hs : stBigLog.stdoutLog = { cur := some bigContent, old := none } := rfl
      have he : envRotFail.rotFailStdout = true := rfl
      rw [hs, he]
      simp [rotate_logs, hlen]
    exact run_err_of_rotate_err hup rfl hrot
  · rfl

/-- Two images with tied modification timestamps. -/
def tieA : Image := { path := "cursor-a.AppImage", mtime := 7 }

/-- Second image of the tied pair, distinct path, same timestamp. -/
def tieB : Image := { path := "cursor-b.AppImage", mtime := 7 }

/-- Counterexample to C4's tie clause: the two enumeration orders of the
same two-image set (equal timestamps) select different winners, so the tie
is broken by enumeration order, not by a path-based deterministic rule. -/
theorem tie_selection_order_dependent :
    ([tieA, tieB] : List Image).Perm [tieB, tieA] ∧
    selectLatest [tieA, tieB] = some tieA ∧
    selectLatest [tieB, tieA] = some tieB ∧
    tieA ≠ tieB := by
  refine ⟨List.Perm.swap tieB tieA [], rfl, rfl, by decide⟩

/-- Claim C4 as amended: with pairwise-distinct modification timestamps the
selection is invariant under every permutation of the enumeration order
(and the selected image always carries a maximal timestamp); with tied
timestamps the winner is the first maximal element in enumeration order,
hence depends on that order. -/
theorem selection_deterministic_distinct (l l' : List Image)
    (hp : l.Perm l') (hd : (l.map Image.mtime).Nodup) :
    selectLatest l = selectLatest l' ∧
    ∀ i, selectLatest l = some i → i ∈ l ∧ ∀ j ∈ l, j.mtime ≤ i.mtime := by
  refine ⟨?_, fun i hi => ⟨selectLatest_mem hi, selectLatest_max hi⟩⟩
  cases l with
  | nil =>
    have h0 : l' = [] := List.perm_nil.mp hp.symm
    rw [h0]
  | cons x xs =>
    cases l' with
    | nil => exact absurd hp.symm (by simp)
    | cons y ys =>
      have hmem : pyMaxAux x xs ∈ x :: xs := selectLatest_mem rfl
      have hmax : ∀ j ∈ x :: xs, j.mtime ≤ (pyMaxAux x xs).mtime :=
        selectLatest_max rfl
      have hmem' : pyMaxAux y ys ∈ y :: ys := selectLatest_mem rfl
      have hmax' : ∀ j ∈ y :: ys, j.mtime ≤ (pyMaxAux y ys).mtime :=
        selectLatest_max rfl
      have hmem'' : pyMaxAux y ys ∈ x :: xs := hp.mem_iff.mpr hmem'
      have h1 : (pyMaxAux x xs).mtime ≤ (pyMaxAux y ys).mtime :=
        hmax' _ (hp.mem_iff.mp hmem)
      have h2 : (pyMaxAux y ys).mtime ≤ (pyMaxAux x xs).mtime :=
        hmax _ hmem''
      have heq : Image.mtime (pyMaxAux x xs) = Image.mtime (pyMaxAux y ys) :=
        le_antisymm h1 h2
      have hsame : pyMaxAux x xs = pyMaxAux y ys :=
        List.inj_on_of_nodup_map hd hmem hmem'' heq
      simp only [selectLatest, hsame]

/-- Environment where the pgrep query raises an `OSError` outside the
caught types (e.g. `PermissionError` for a non-executable `pgrep`). -/
def envPermErr : Env := { envInstall with pgrep := .raisedUncaught }

/-- Counterexample to C10 as stated: on an `OSError` outside the caught
types the detector does not report "not running" — `is_cursor_running`
raises, the exception escapes `run` (which has no handler, nor does
`main`), and the process aborts. -/
theorem is_cursor_running_uncaught_aborts :
    is_cursor_running PgrepOutcome.raisedUncaught = .error () ∧
    run envPermErr stLinked false = .error stLinked :=
  ⟨rfl, rfl⟩

/-- Witness for the amended C4 on a concrete two-image set with distinct
timestamps and its transposition. -/
theorem selection_deterministic_distinct_witness :
    selectLatest [imgA, tieA] = selectLatest [tieA, imgA] ∧
    ∀ i, selectLatest [imgA, tieA] = some i →
      i ∈ [imgA, tieA] ∧ ∀ j ∈ [imgA, tieA], j.mtime ≤ i.mtime :=
  selection_deterministic_distinct [imgA, tieA] [tieA, imgA]
    (List.Perm.swap tieA imgA []) (by decide)

end CursorWrapper
